import Mathlib

/-!
Verification development for the Geo_extractor repository.

The repository has two Python modules:
* `pipeline.py` — folder-based resolution pipeline (`process_images`,
  `convert_to_degrees`) with an EXIF-first / Gemini-fallback strategy and
  per-item error handling.
* `app2.py` — Streamlit app whose `process_uploaded_files` is a second
  landmark-identifier implementation (regex JSON extraction, null-coordinate
  substitution, abort-on-first-error batches) plus a consecutive-pair
  great-circle total-distance computation over session nodes.

The shallow embedding below models Python floats as `Rat` (JSON number
literals are first kept in syntactic decimal form `DecNum` and converted
with `DecNum.toRat` exactly where the Python code materialises a float),
dicts produced by `json.loads` as association lists, raised exceptions as
`Except`/`Option` values, and console/return-value diagnostics as strings
built exactly as the source's f-strings build them.
-/

namespace Geo

/-- A decimal numeral as it appears in a JSON reply: sign, integer part,
and fractional digits (count and value).  Kept syntactic so parsing stays
decidable; `DecNum.toRat` gives its exact rational value. -/
structure DecNum where
  neg : Bool
  ip : Nat
  fdigits : Nat
  fp : Nat
deriving DecidableEq, Repr

/-- Exact rational value of a decimal numeral. -/
def DecNum.toRat (d : DecNum) : Rat :=
  (if d.neg then -1 else 1) * ((d.ip : Rat) + (d.fp : Rat) / (10 : Rat) ^ d.fdigits)

/-- JSON scalar values relevant to the vision-model reply contract
(`{"lat": number|null, "lng": number|null, "name": string}`).  The replies
the identifier accepts are flat objects of null / number / string values,
with no nesting, escape sequences or exponents. -/
inductive JVal where
  | null
  | num (d : DecNum)
  | str (s : String)
deriving DecidableEq, Repr

/-- A parsed flat JSON object: key/value association list.  Keys are assumed
distinct, matching the vision-model reply contract. -/
abbrev JObj := List (String × JVal)

/-- A parsed top-level JSON document: either a flat object or a scalar. -/
inductive JTop where
  | scalar (v : JVal)
  | obj (fields : JObj)
deriving DecidableEq, Repr

/-- Whitespace skipping, as `json.loads` does between tokens. -/
def skipWs (cs : List Char) : List Char := cs.dropWhile (fun c => c.isWhitespace)

/-- Digits to a natural number, most significant first. -/
def digitsToNat (ds : List Char) : Nat := ds.foldl (fun a c => a * 10 + (c.toNat - 48)) 0

/-- Parse a JSON number (optional minus sign, integer part, optional
fractional part) into a decimal numeral, returning the unconsumed input.
Modelled from the spec: this is Python `json`'s number grammar restricted to
the sign/integer/fraction forms the §6 reply contract uses (no exponents). -/
def parseNumber (cs : List Char) : Option (DecNum × List Char) :=
  let p : Bool × List Char :=
    match cs with
    | '-' :: t => (true, t)
    | _ => (false, cs)
  let neg := p.1
  let cs1 := p.2
  let ds := cs1.takeWhile (fun c => c.isDigit)
  let rest1 := cs1.dropWhile (fun c => c.isDigit)
  if ds.isEmpty then none
  else
    match rest1 with
    | '.' :: r2 =>
      let fs := r2.takeWhile (fun c => c.isDigit)
      let r3 := r2.dropWhile (fun c => c.isDigit)
      if fs.isEmpty then none
      else some (⟨neg, digitsToNat ds, fs.length, digitsToNat fs⟩, r3)
    | _ => some (⟨neg, digitsToNat ds, 0, 0⟩, rest1)

/-- Parse a JSON string literal (no escape sequences, per the reply
contract's plain landmark names), returning content and unconsumed input. -/
def parseStringLit (cs : List Char) : Option (String × List Char) :=
  match cs with
  | '"' :: rest =>
    let content := rest.takeWhile (fun c => c ≠ '"')
    match rest.dropWhile (fun c => c ≠ '"') with
    | '"' :: r2 => some (content.asString, r2)
    | _ => none
  | _ => none

/-- Parse a JSON scalar value: `null`, a string, or a number. -/
def parseValue (cs : List Char) : Option (JVal × List Char) :=
  match cs with
  | 'n' :: 'u' :: 'l' :: 'l' :: rest => some (JVal.null, rest)
  | '"' :: _ => (parseStringLit cs).map (fun p => (JVal.str p.1, p.2))
  | _ => (parseNumber cs).map (fun p => (JVal.num p.1, p.2))

/-- Parse the fields of a JSON object after its opening brace, ending at the
closing brace.  `fuel` bounds the recursion (callers pass more fuel than
characters remain). -/
def parseFields : Nat → List Char → Option (JObj × List Char)
  | 0, _ => none
  | fuel + 1, cs =>
    match parseStringLit (skipWs cs) with
    | none => none
    | some (k, r1) =>
      match skipWs r1 with
      | ':' :: r2 =>
        match parseValue (skipWs r2) with
        | none => none
        | some (v, r3) =>
          match skipWs r3 with
          | ',' :: r4 =>
            match parseFields fuel r4 with
            | some (fs, r) => some ((k, v) :: fs, r)
            | none => none
          | '}' :: r4 => some ([(k, v)], r4)
          | _ => none
      | _ => none

/-- Parse an object body given the input after the opening brace. -/
def parseObjBody (cs : List Char) : Option (JObj × List Char) :=
  match skipWs cs with
  | '}' :: r => some ([], r)
  | _ => parseFields (cs.length + 1) cs

/-- Python `json.loads` on a string expected to be a whole JSON object
(app2's regex match always starts with a brace); any parse problem is the
error that `json.loads` raises. -/
def parseObjChars (cs : List Char) : Except String JObj :=
  match skipWs cs with
  | '{' :: rest =>
    match parseObjBody rest with
    | some (fs, r) =>
      if (skipWs r).isEmpty then Except.ok fs
      else Except.error ("JSONDecodeError: Extra data")
    | none => Except.error ("JSONDecodeError: Expecting value")
  | _ => Except.error ("JSONDecodeError: Expecting value")

/-- Python `json.loads` on arbitrary text: a flat object or a single scalar.
Used by `pipeline.py`, whose cleaned reply text may not contain braces at
all (in which case `json.loads` receives bare prose or a bare scalar). -/
def pyJsonLoads (cs : List Char) : Except String JTop :=
  match skipWs cs with
  | '{' :: rest =>
    match parseObjBody rest with
    | some (fs, r) =>
      if (skipWs r).isEmpty then Except.ok (JTop.obj fs)
      else Except.error ("JSONDecodeError: Extra data")
    | none => Except.error ("JSONDecodeError: Expecting value")
  | other =>
    match parseValue other with
    | some (v, r) =>
      if (skipWs r).isEmpty then Except.ok (JTop.scalar v)
      else Except.error ("JSONDecodeError: Expecting value")
    | none => Except.error ("JSONDecodeError: Expecting value")

/-- Python truthiness of a JSON value (`None`, `0`, `0.0` and `""` are
falsy), used by app2's `data.get('lat') or 0.0`.  A decimal numeral is
falsy exactly when its integer and fractional parts are both zero. -/
def pyTruthy : JVal → Bool
  | JVal.null => false
  | JVal.num d => decide (d.ip ≠ 0) || decide (d.fp ≠ 0)
  | JVal.str s => !s.isEmpty

/-- app2's `data.get(k) or 0.0`: dictionary lookup without a default gives
`None`; `or 0.0` replaces any falsy result with `0.0`. -/
def pyGetOrZero (fields : JObj) (k : String) : JVal :=
  match fields.lookup k with
  | some v => if pyTruthy v then v else JVal.num ⟨false, 0, 0, 0⟩
  | none => JVal.num ⟨false, 0, 0, 0⟩

/-- `data.get(k, d)`: dictionary lookup with an explicit default. -/
def jGetD (fields : JObj) (k : String) (d : JVal) : JVal :=
  match fields.lookup k with
  | some v => v
  | none => d

/-- Python `float(x)` applied to a JSON value: numbers yield their exact
value, numeric strings are parsed, everything else raises. -/
def pyFloat (v : JVal) : Except String Rat :=
  match v with
  | JVal.num d => Except.ok d.toRat
  | JVal.null => Except.error ("TypeError: float() argument is None")
  | JVal.str s =>
    match parseNumber (skipWs s.data) with
    | some (d, r) =>
      if (skipWs r).isEmpty then Except.ok d.toRat
      else Except.error ("ValueError: could not convert string to float")
    | none => Except.error ("ValueError: could not convert string to float")

/-! ### List-level string utilities (Python `str` methods used by the code) -/

/-- Boolean list-prefix test. -/
def isPrefixList : List Char → List Char → Bool
  | [], _ => true
  | _ :: _, [] => false
  | a :: as, b :: bs => a == b && isPrefixList as bs

/-- One fuelled pass of Python `str.replace`: replace non-overlapping
occurrences of `pat` (nonempty) left to right. -/
def replaceOn (pat rep : List Char) : Nat → List Char → List Char
  | 0, cs => cs
  | _ + 1, [] => []
  | fuel + 1, c :: cs =>
    if !pat.isEmpty && isPrefixList pat (c :: cs) then
      rep ++ replaceOn pat rep fuel ((c :: cs).drop pat.length)
    else
      c :: replaceOn pat rep fuel cs

/-- Python `str.replace` on character lists. -/
def pyReplace (cs pat rep : List Char) : List Char := replaceOn pat rep cs.length cs

/-- Python `str.strip()`: drop whitespace from both ends. -/
def trimList (cs : List Char) : List Char :=
  ((cs.dropWhile (fun c => c.isWhitespace)).reverse.dropWhile (fun c => c.isWhitespace)).reverse

/-- Python `str.find(c)`: index of the first occurrence, `-1` if absent. -/
def pyFind (c : Char) (cs : List Char) : Int :=
  match cs.findIdx? (fun x => x = c) with
  | some i => (i : Int)
  | none => -1

/-- Python `str.rfind(c)`: index of the last occurrence, `-1` if absent. -/
def pyRFind (c : Char) (cs : List Char) : Int :=
  match cs.reverse.findIdx? (fun x => x = c) with
  | some i => ((cs.length - 1 - i : Nat) : Int)
  | none => -1

/-- Python slice `cs[a:b]` for nonnegative bounds (negative differences
clamp to the empty slice, as in Python). -/
def pySlice (cs : List Char) (a b : Int) : List Char :=
  (cs.drop a.toNat).take (b - a).toNat

/-- Lowercase a single ASCII letter (Python `str.lower` on the characters
file names contain). -/
def charLower (c : Char) : Char :=
  if 'A' ≤ c && c ≤ 'Z' then Char.ofNat (c.toNat + 32) else c

/-- Python `name.lower()` on a character list. -/
def lowerList (cs : List Char) : List Char := cs.map charLower

/-- Boolean list-suffix test (Python `str.endswith`). -/
def endsWithList (cs sfx : List Char) : Bool := isPrefixList sfx.reverse cs.reverse

end Geo

namespace Geo

/-! ### `pipeline.py` — metadata extractor and resolution pipeline -/

/-- An EXIF rational (`exifread`'s `Ratio`): stored numerator and
denominator. -/
structure Ratio where
  num : Int
  den : Int
deriving DecidableEq, Repr

/-- A GPS degrees/minutes/seconds triple as `exifread` returns it
(`value.values[0..2]`). -/
structure DMS where
  d : Ratio
  m : Ratio
  s : Ratio
deriving DecidableEq, Repr

/-- `convert_to_degrees` (pipeline.py lines 27-32): decimal degrees from a
DMS triple using each component's stored numerator/denominator.  A zero
denominator is Python's `ZeroDivisionError`, which the caller's
`except Exception` catches. -/
def convert_to_degrees (v : DMS) : Except String Rat :=
  if v.d.den = 0 ∨ v.m.den = 0 ∨ v.s.den = 0 then
    Except.error ("ZeroDivisionError")
  else
    Except.ok ((v.d.num : Rat) / (v.d.den : Rat)
      + (v.m.num : Rat) / (v.m.den : Rat) / 60
      + (v.s.num : Rat) / (v.s.den : Rat) / 3600)

/-- The four GPS tags `process_images` reads from `exifread`'s tag
dictionary; each is absent when `tags.get(...)` returns `None`.
The reference tags carry their first value character (`.values[0]`). -/
structure ExifTags where
  latTag : Option DMS
  latRef : Option Char
  lngTag : Option DMS
  lngRef : Option Char
deriving DecidableEq, Repr

/-- Outcome of the Gemini call in pipeline.py's strategy B: either the whole
`try` body raised before/at the model call (transport error, unreadable
image, or a safety refusal raising inside `generate_content`/`response.text`)
or a textual reply was obtained. -/
inductive AIResult where
  | raised (msg : String)
  | text (s : String)
deriving Repr

/-- One file of a batch as pipeline.py sees it: its name, the result of
`exifread.process_file` (which can itself raise), and what the vision model
would do if invoked for it. -/
structure PipeImage where
  name : String
  exif : Except String ExifTags
  ai : AIResult

/-- An element of pipeline.py's `all_pts`: the dict appended for a resolved
image.  `lat`/`lng`/`name` hold whatever value the source dict holds —
converted EXIF floats, or the raw JSON values from the model reply
(which is how a JSON `null` can end up stored). -/
inductive PVal where
  | null
  | num (q : Rat)
  | str (s : String)
deriving DecidableEq, Repr

/-- Conversion from a parsed JSON value to a stored dict value:
numerals become the floats `json.loads` would have produced. -/
def JVal.toP : JVal → PVal
  | JVal.null => PVal.null
  | JVal.num d => PVal.num d.toRat
  | JVal.str s => PVal.str s

/-- A point dict appended to `all_pts` (pipeline.py lines 74-80 / 118-125).
`desc` is present only on the AI branch. -/
structure PipePoint where
  lat : PVal
  lng : PVal
  name : PVal
  filename : String
  desc : Option PVal
  source : String
deriving DecidableEq, Repr

/-- The EXIF coordinate computation inside strategy A (pipeline.py lines
62-72), given that `exifread.process_file` succeeded: `ok none` when one of
the four tags is missing (the `if` guard fails, a normal negative result),
`ok (some (lat, lng))` when all four are present and convert, `error` when a
conversion raises. -/
def exifCoord (t : ExifTags) : Except String (Option (Rat × Rat)) :=
  match t.latTag, t.lngTag, t.latRef, t.lngRef with
  | some latT, some lngT, some latR, some lngR =>
    match convert_to_degrees latT with
    | Except.error e => Except.error e
    | Except.ok lat0 =>
      match convert_to_degrees lngT with
      | Except.error e => Except.error e
      | Except.ok lng0 =>
        Except.ok (some
          ((if latR ≠ 'N' then -lat0 else lat0),
           (if lngR ≠ 'E' then -lng0 else lng0)))
  | _, _, _, _ => Except.ok none

/-- Strategy A for one image (pipeline.py lines 57-87): the appended
EXIF point, if any, together with the console lines this branch prints.
Any exception inside the `try` is caught and printed — nothing propagates. -/
def exifOutcome (img : PipeImage) : Option PipePoint × List String :=
  match img.exif with
  | Except.error e => (none, [("  ⚠️ Error parsing EXIF: ") ++ e])
  | Except.ok t =>
    match exifCoord t with
    | Except.error e => (none, [("  ⚠️ Error parsing EXIF: ") ++ e])
    | Except.ok none => (none, [])
    | Except.ok (some (lat, lng)) =>
      (some { lat := PVal.num lat, lng := PVal.num lng,
              name := PVal.str (("GPS Data (") ++ img.name ++ (")")),
              filename := img.name, desc := none, source := ("EXIF") },
       [("  ✅ Found exact EXIF coordinates!")])

/-- Text rendering of a JSON value inside an f-string diagnostic (only the
string case matters to any claim; numerals are not rendered digit-exactly). -/
def jvalText : JVal → String
  | JVal.null => ("None")
  | JVal.num _ => ("<number>")
  | JVal.str s => s

/-- pipeline.py's response cleaning (lines 107-113): strip code fences,
`strip()`, then slice from the first brace to one past the last brace using
Python `find`/`rfind` semantics (note `end_idx` is `rfind + 1`, so a reply
with a `{` but no `}` slices to the empty string rather than skipping the
slice). -/
def pipelineExtract (cs : List Char) : List Char :=
  let t := trimList (pyReplace (pyReplace cs (("```json").data) []) (("```").data) [])
  let s := pyFind '{' t
  let e := pyRFind '}' t + 1
  if s ≠ -1 ∧ e ≠ -1 then pySlice t s e else t

/-- Strategy B for one image (pipeline.py lines 92-130): the appended AI
point, if any, and the console lines printed.  `data['lat']`/`['lng']`/
`['name']` are plain dict accesses, so a missing key raises `KeyError` into
the `except`; a non-dict JSON document makes `"error" not in data` or the
accesses raise likewise.  Note there is no null substitution here: whatever
JSON value sits under `lat`/`lng` is stored as-is. -/
def aiOutcome (img : PipeImage) : Option PipePoint × List String :=
  let boot := ("  🔍 No usable GPS. Booting Gemini AI...")
  match img.ai with
  | AIResult.raised e => (none, [boot, ("  ⚠️ AI Error: ") ++ e])
  | AIResult.text s =>
    match pyJsonLoads (pipelineExtract s.data) with
    | Except.error e => (none, [boot, ("  ⚠️ AI Error: ") ++ e])
    | Except.ok (JTop.scalar _) => (none, [boot, ("  ⚠️ AI Error: TypeError")])
    | Except.ok (JTop.obj fields) =>
      if (fields.lookup ("error")).isSome then
        (none, [boot, ("  ❌ AI could not identify a landmark.")])
      else
        match fields.lookup ("lat"), fields.lookup ("lng"), fields.lookup ("name") with
        | some lat, some lng, some nm =>
          (some { lat := lat.toP, lng := lng.toP, name := nm.toP,
                  filename := img.name,
                  desc := some (jGetD fields ("desc") (JVal.str (""))).toP,
                  source := ("AI") },
           [boot, ("  📍 AI found: ") ++ jvalText nm])
        | _, _, _ => (none, [boot, ("  ⚠️ AI Error: KeyError")])

/-- Per-image output of the loop body: appended points, console lines
(headed by the `[+] Processing:` line naming the file), and the landmark
identifier invocations made (by file name).  Strategy B runs exactly when
strategy A yielded no point (`found_exif` stays false). -/
structure ImageOut where
  pts : List PipePoint
  diags : List String
  aiCalls : List String
deriving DecidableEq, Repr

/-- The body of `process_images`' per-file loop (pipeline.py lines 52-130). -/
def imageResult (img : PipeImage) : ImageOut :=
  let header := ("[+] Processing: ") ++ img.name
  match exifOutcome img with
  | (some pt, ds) => { pts := [pt], diags := header :: ds, aiCalls := [] }
  | (none, ds) =>
    let r := aiOutcome img
    { pts := r.1.toList, diags := (header :: ds) ++ r.2, aiCalls := [img.name] }

/-- The extension filter of pipeline.py line 48:
`f.lower().endswith(('.png', '.jpg', '.jpeg', '.webp'))`. -/
def hasImageExt (name : String) : Bool :=
  let n := lowerList name.data
  endsWithList n ((".png").data) || endsWithList n ((".jpg").data)
    || endsWithList n ((".jpeg").data) || endsWithList n ((".webp").data)

/-- Result of `process_images`: the returned folium map (modelled by the
list of points it is built from, `none` when no map is made), the returned
`all_pts`, the console transcript, and the landmark-identifier invocations. -/
structure PipelineRun where
  map : Option (List PipePoint)
  pts : List PipePoint
  diags : List String
  aiCalls : List String
deriving DecidableEq, Repr

/-- `process_images` (pipeline.py lines 35-158): `(None, [])` for a missing
folder; otherwise scan the folder's files in order, skip non-image
extensions silently, run the per-file body, and build a map iff any points
were collected. -/
def process_images (folderExists : Bool) (files : List PipeImage) : PipelineRun :=
  if folderExists then
    let kept := files.filter (fun i => hasImageExt i.name)
    let pts := kept.flatMap (fun i => (imageResult i).pts)
    { map := if pts.isEmpty then none else some pts,
      pts := pts,
      diags := kept.flatMap (fun i => (imageResult i).diags),
      aiCalls := kept.flatMap (fun i => (imageResult i).aiCalls) }
  else
    { map := none, pts := [], diags := [], aiCalls := [] }

end Geo

namespace Geo

/-! ### `app2.py` — Streamlit landmark identifier and trajectory distance -/

/-- What the vision model does for one uploaded file in app2.py:
`crash` — `Image.open`/`generate_content` (or anything else in the outer
`try`) raises; `refusal` — the call returns but `response.text` raises
`ValueError` (safety/content filtering); `reply` — a textual reply. -/
inductive ModelCall where
  | crash (msg : String)
  | refusal
  | reply (text : String)
deriving Repr

/-- One uploaded file: its name and the modelled vision-model behaviour. -/
structure UploadFile where
  name : String
  call : ModelCall

/-- A row of the result DataFrame (app2.py lines 61-67). -/
structure Row where
  file : String
  lat : Rat
  lon : Rat
  source : String
  landmark : JVal
deriving DecidableEq, Repr

/-- app2.py line 49's safety-block message. -/
def safetyMsg (name : String) : String :=
  ("🚨 AI Safety Block: Google Gemini refused to analyze ") ++ name
    ++ (" due to safety filters.")

/-- app2.py line 69's format-error message. -/
def formatMsg (raw : String) : String :=
  ("🚨 Format Error! The AI replied with: ") ++ raw

/-- app2.py line 74's catch-all crash message. -/
def crashMsg (name msg : String) : String :=
  ("🚨 System Crash on ") ++ name ++ (": ") ++ msg

/-- app2.py line 79's success message. -/
def successMsg : String := ("✅ Neural Intelligence Extraction Successful.")

/-- app2.py line 77's empty-result message. -/
def emptyMsg : String :=
  ("⚠️ AI Neural Vision could not extract recognizable landmarks.")

/-- app2.py line 31's missing-key message. -/
def keyMsg : String := ("❌ Cloud Security Error: API Key Missing.")

/-- `re.search(r'\{.*\}', raw, re.DOTALL)` (app2.py line 52): with the
greedy `.*`, the leftmost-longest match runs from the first `{` to the last
`}` (provided that `}` comes after the `{`); `none` otherwise. -/
def app2Extract (cs : List Char) : Option (List Char) :=
  match cs.findIdx? (fun x => x = '{'), cs.reverse.findIdx? (fun x => x = '}') with
  | some i, some ri =>
    let j := cs.length - 1 - ri
    if i < j then some ((cs.drop i).take (j + 1 - i)) else none
  | _, _ => none

/-- The body of app2.py's per-file loop (lines 36-74): either a Row for the
DataFrame, or the error message the function would return (every failure
returns out of the loop immediately).  The null-coordinate substitution is
`float(data.get('lat') or 0.0)` on lines 58-59. -/
def processFile (file : UploadFile) : Except String Row :=
  match file.call with
  | ModelCall.crash e => Except.error (crashMsg file.name e)
  | ModelCall.refusal => Except.error (safetyMsg file.name)
  | ModelCall.reply text =>
    match app2Extract text.data with
    | none => Except.error (formatMsg text)
    | some sub =>
      match parseObjChars sub with
      | Except.error e => Except.error (crashMsg file.name e)
      | Except.ok fields =>
        match pyFloat (pyGetOrZero fields ("lat")) with
        | Except.error e => Except.error (crashMsg file.name e)
        | Except.ok lat =>
          match pyFloat (pyGetOrZero fields ("lng")) with
          | Except.error e => Except.error (crashMsg file.name e)
          | Except.ok lng =>
            Except.ok { file := file.name, lat := lat, lon := lng,
                        source := ("AI Neural Vision"),
                        landmark := jGetD fields ("name") (JVal.str ("Unknown Node")) }

/-- The loop of `process_uploaded_files` (app2.py lines 35-79): files are
processed in order, accumulating rows; the first failure returns its
message with an empty DataFrame, discarding the rows accumulated so far. -/
def processFiles : List UploadFile → List Row → String × List Row
  | [], results => if results.isEmpty then (emptyMsg, []) else (successMsg, results)
  | f :: rest, results =>
    match processFile f with
    | Except.error msg => (msg, [])
    | Except.ok row => processFiles rest (results ++ [row])

/-- `process_uploaded_files` (app2.py lines 27-79).  `hasKey` models whether
`GEMINI_API_KEY` is present in the environment. -/
def process_uploaded_files (hasKey : Bool) (files : List UploadFile) : String × List Row :=
  if hasKey then processFiles files [] else (keyMsg, [])

/-- A session node's coordinate (app2.py lines 148-157): the lat/lon pair
the distance loop reads. -/
structure Node where
  lat : Rat
  lon : Rat
deriving DecidableEq, Repr

/-- The trajectory-distance computation (app2.py lines 160-167): the session
total starts at `0.0` and, only when more than one node exists, becomes the
fold over `i` of `geodesic(nodes[i], nodes[i+1])`.  The geodesic itself is
`geopy.distance.geodesic(...).km`, an external library call, so it enters
the model as the `dist` parameter. -/
def total_distance (dist : Node → Node → Rat) (nodes : List Node) : Rat :=
  if nodes.length > 1 then
    (List.range (nodes.length - 1)).foldl
      (fun acc i => acc + dist (nodes.getD i ⟨0, 0⟩) (nodes.getD (i + 1) ⟨0, 0⟩)) 0
  else 0

/-- Specification-side reading of the same computation: the sum of `dist`
over exactly the consecutive pairs of the list. -/
def sumPairs (dist : Node → Node → Rat) : List Node → Rat
  | a :: b :: rest => dist a b + sumPairs dist (b :: rest)
  | _ => 0

/-- Computable absolute value on `Rat` (for the concrete symmetric distance
below). -/
def ratAbs (q : Rat) : Rat := if q < 0 then -q else q

/-- A concrete symmetric distance function used to exhibit order-(in)sensitivity
facts about `total_distance` independent of the external geodesic library. -/
def dTaxi (p q : Node) : Rat := ratAbs (p.lat - q.lat) + ratAbs (p.lon - q.lon)

end Geo

deriving instance DecidableEq for Except

namespace Geo

/-! ### Helper lemmas -/

/-- `String.append` concatenates the underlying character lists. -/
lemma strDataAppend (a b : String) : (a ++ b).data = a.data ++ b.data := rfl

/-- The safety-block message never coincides with the format-error message,
whatever file name and raw reply they carry: they differ at their third
character. -/
lemma safety_ne_format (n r : String) : safetyMsg n ≠ formatMsg r := by
  intro h
  have h2 : (safetyMsg n).data.take 3 = (formatMsg r).data.take 3 := by rw [h]
  have e1 : (safetyMsg n).data.take 3
      = (("🚨 AI Safety Block: Google Gemini refused to analyze ").data.take 3) := by
    show ((("🚨 AI Safety Block: Google Gemini refused to analyze ") ++ n
      ++ (" due to safety filters.")).data.take 3) = _
    rw [strDataAppend, strDataAppend]
    rw [List.take_append_of_le_length (by simp), List.take_append_of_le_length (by decide)]
  have e2 : (formatMsg r).data.take 3
      = (("🚨 Format Error! The AI replied with: ").data.take 3) := by
    show ((("🚨 Format Error! The AI replied with: ") ++ r).data.take 3) = _
    rw [strDataAppend]
    rw [List.take_append_of_le_length (by decide)]
  rw [e1, e2] at h2
  exact absurd h2 (by decide)

lemma sumPairs_nil (dist : Node → Node → Rat) : sumPairs dist [] = 0 := rfl

lemma sumPairs_single (dist : Node → Node → Rat) (p : Node) : sumPairs dist [p] = 0 := rfl

lemma sumPairs_cons_cons (dist : Node → Node → Rat) (a b : Node) (rest : List Node) :
    sumPairs dist (a :: b :: rest) = dist a b + sumPairs dist (b :: rest) := rfl

/-- The indexed fold of the distance loop equals the structural sum over
consecutive pairs. -/
lemma foldl_range_sumPairs (dist : Node → Node → Rat) (z : Node) :
    ∀ (rest : List Node) (a : Node) (acc : Rat),
    (List.range rest.length).foldl
      (fun acc i => acc + dist ((a :: rest).getD i z) ((a :: rest).getD (i + 1) z)) acc
      = acc + sumPairs dist (a :: rest) := by
  intro rest
  induction rest with
  | nil => intro a acc; simp [sumPairs_single]
  | cons b rs ih =>
    intro a acc
    rw [List.length_cons, List.range_succ_eq_map, List.foldl_cons, List.foldl_map]
    simp only [List.getD_cons_zero, List.getD_cons_succ]
    have ih' := ih b (acc + dist a b)
    simp only [List.getD_cons_succ] at ih'
    rw [ih', sumPairs_cons_cons, add_assoc]

/-- The source's indexed loop computes exactly the sum over consecutive
pairs (and `0` for lists of length at most one). -/
lemma total_distance_eq_sumPairs (dist : Node → Node → Rat) (nodes : List Node) :
    total_distance dist nodes = sumPairs dist nodes := by
  match nodes with
  | [] => rfl
  | [p] => rfl
  | a :: b :: rest =>
    show (if (a :: b :: rest).length > 1 then _ else _) = _
    rw [if_pos (by simp)]
    have h := foldl_range_sumPairs dist ⟨0, 0⟩ (b :: rest) a 0
    simp only [List.length_cons, Nat.add_sub_cancel] at h ⊢
    rw [h, zero_add]

/-- Appending one node adds the distance from the previous last node. -/
lemma sumPairs_append_last (dist : Node → Node → Rat) :
    ∀ (m : List Node) (a : Node),
    sumPairs dist (m ++ [a]) = sumPairs dist m +
      (match m.getLast? with | none => 0 | some x => dist x a) := by
  intro m
  induction m with
  | nil => intro a; simp [sumPairs_nil, sumPairs_single]
  | cons x m' ih =>
    intro a
    cases m' with
    | nil => simp [sumPairs_nil, sumPairs_single, sumPairs_cons_cons]
    | cons y m'' =>
      rw [List.cons_append, List.cons_append]
      rw [show sumPairs dist (x :: y :: (m'' ++ [a]))
            = dist x y + sumPairs dist (y :: (m'' ++ [a])) from rfl]
      rw [show (y :: (m'' ++ [a])) = ((y :: m'') ++ [a]) from rfl, ih a]
      rw [sumPairs_cons_cons, add_assoc]
      simp

/-- For a symmetric distance, the consecutive-pair sum is invariant under
reversal. -/
lemma sumPairs_reverse (dist : Node → Node → Rat)
    (hsym : ∀ p q, dist p q = dist q p) :
    ∀ l : List Node, sumPairs dist l.reverse = sumPairs dist l := by
  intro l
  induction l with
  | nil => rfl
  | cons a rest ih =>
    rw [List.reverse_cons, sumPairs_append_last, ih]
    cases rest with
    | nil => simp [sumPairs_nil, sumPairs_single]
    | cons b rs =>
      simp only [List.getLast?_reverse, List.head?_cons]
      rw [sumPairs_cons_cons, hsym b a, add_comm]

/-- `ratAbs` of a difference is symmetric. -/
lemma ratAbs_sub_comm (a b : Rat) : ratAbs (a - b) = ratAbs (b - a) := by
  unfold ratAbs
  split_ifs <;> linarith

/-- The taxicab distance is symmetric. -/
lemma dTaxi_symm : ∀ p q, dTaxi p q = dTaxi q p := by
  intro p q
  unfold dTaxi
  rw [ratAbs_sub_comm, ratAbs_sub_comm (p.lon)]

/-- `process_images` on an existing folder returns exactly the concatenated
per-image points of the kept files. -/
lemma process_images_pts (files : List PipeImage) :
    (process_images true files).pts
      = (files.filter (fun i => hasImageExt i.name)).flatMap (fun i => (imageResult i).pts) := by
  simp [process_images]

/-- `process_images` diagnostics are the concatenated per-image transcripts
of the kept files. -/
lemma process_images_diags (files : List PipeImage) :
    (process_images true files).diags
      = (files.filter (fun i => hasImageExt i.name)).flatMap (fun i => (imageResult i).diags) := by
  simp [process_images]

/-- When strategy A yields no point, the loop body boots the AI branch:
the point is the AI branch's, the transcript gains the AI lines, and the
landmark identifier is invoked (exactly once). -/
lemma imageResult_of_noexif (img : PipeImage) (h : (exifOutcome img).1 = none) :
    imageResult img =
      { pts := (aiOutcome img).1.toList,
        diags := (((("[+] Processing: ") ++ img.name) :: (exifOutcome img).2))
          ++ (aiOutcome img).2,
        aiCalls := [img.name] } := by
  obtain ⟨ds, hE⟩ : ∃ ds, exifOutcome img = (none, ds) :=
    ⟨(exifOutcome img).2, by rw [← h]⟩
  simp [imageResult, hE]

/-- When strategy A yields a point, the loop body short-circuits: one EXIF
point, no AI invocation. -/
lemma imageResult_of_exif (img : PipeImage) (pt : PipePoint)
    (h : (exifOutcome img).1 = some pt) :
    imageResult img =
      { pts := [pt],
        diags := (("[+] Processing: ") ++ img.name) :: (exifOutcome img).2,
        aiCalls := [] } := by
  obtain ⟨ds, hE⟩ : ∃ ds, exifOutcome img = (some pt, ds) :=
    ⟨(exifOutcome img).2, by rw [← h]⟩
  simp [imageResult, hE]

/-- Both modelled landmark-identifier failure kinds (the call raising, or
the reply failing to parse) produce no point. -/
lemma aiOutcome_none_of_fail (img : PipeImage)
    (hfail : (∃ e, img.ai = AIResult.raised e) ∨
      (∃ s e, img.ai = AIResult.text s ∧
        pyJsonLoads (pipelineExtract s.data) = Except.error e)) :
    (aiOutcome img).1 = none := by
  rcases hfail with ⟨e, he⟩ | ⟨s, e, hs, herr⟩
  · simp [aiOutcome, he]
  · simp [aiOutcome, hs, herr]

/-- `exifCoord` yields a coordinate exactly when all four tags are present
and both conversions succeed. -/
lemma exifCoord_some_iff (t : ExifTags) :
    (∃ c, exifCoord t = Except.ok (some c)) ↔
    ∃ latT lngT latR lngR lat0 lng0,
      t.latTag = some latT ∧ t.lngTag = some lngT ∧
      t.latRef = some latR ∧ t.lngRef = some lngR ∧
      convert_to_degrees latT = Except.ok lat0 ∧
      convert_to_degrees lngT = Except.ok lng0 := by
  constructor
  · rintro ⟨c, hc⟩
    rcases h1 : t.latTag with _ | latT
    · simp [exifCoord, h1] at hc
    rcases h2 : t.lngTag with _ | lngT
    · simp [exifCoord, h1, h2] at hc
    rcases h3 : t.latRef with _ | latR
    · simp [exifCoord, h1, h2, h3] at hc
    rcases h4 : t.lngRef with _ | lngR
    · simp [exifCoord, h1, h2, h3, h4] at hc
    rcases h5 : convert_to_degrees latT with e | lat0
    · simp [exifCoord, h1, h2, h3, h4, h5] at hc
    rcases h6 : convert_to_degrees lngT with e | lng0
    · simp [exifCoord, h1, h2, h3, h4, h5, h6] at hc
    exact ⟨latT, lngT, latR, lngR, lat0, lng0, rfl, rfl, rfl, rfl, h5, h6⟩
  · rintro ⟨latT, lngT, latR, lngR, lat0, lng0, h1, h2, h3, h4, h5, h6⟩
    refine ⟨((if latR ≠ 'N' then -lat0 else lat0), (if lngR ≠ 'E' then -lng0 else lng0)), ?_⟩
    simp only [exifCoord, h1, h2, h3, h4, h5, h6]

/-- `exifOutcome` yields a point exactly when `exifread` succeeded and
`exifCoord` yields a coordinate. -/
lemma exifOutcome_isSome_iff (img : PipeImage) :
    ((exifOutcome img).1.isSome = true) ↔
    ∃ t c, img.exif = Except.ok t ∧ exifCoord t = Except.ok (some c) := by
  constructor
  · intro h
    rcases hexif : img.exif with e | t
    · simp [exifOutcome, hexif] at h
    rcases hc : exifCoord t with e | oc
    · simp [exifOutcome, hexif, hc] at h
    rcases oc with _ | c
    · simp [exifOutcome, hexif, hc] at h
    obtain ⟨lat, lng⟩ := c
    exact ⟨t, (lat, lng), rfl, hc⟩
  · rintro ⟨t, ⟨lat, lng⟩, h1, h2⟩
    simp [exifOutcome, h1, h2]

end Geo

namespace Geo

/-! ### Concrete inputs used by witnesses and counterexamples -/

/-- The JSON payload of §8's response-parsing example. -/
def tokyoJson : String :=
  "\x7b\"lat\": 35.6586, \"lng\": 139.7454, \"name\": \"Tokyo Tower\"\x7d"

/-- §8's model reply with prose around the JSON payload. -/
def tokyoReply : String := ("Sure! ") ++ tokyoJson ++ (" Hope that helps!")

/-- An uploaded file whose model reply is the Tokyo Tower example. -/
def tokyoFile : UploadFile := { name := ("tokyo.jpg"), call := ModelCall.reply tokyoReply }

/-- An uploaded file whose model reply contains no brace pair. -/
def badFile : UploadFile := { name := ("bad.jpg"), call := ModelCall.reply ("no json here") }

/-- An uploaded file blocked by the safety filter. -/
def refusalFile : UploadFile := { name := ("refused.jpg"), call := ModelCall.refusal }

/-- A model reply with explicitly null coordinates. -/
def nullReply : String := "\x7b\"lat\": null, \"lng\": null, \"name\": \"X\"\x7d"

/-- A pipeline image with no GPS tags whose model reply has null
coordinates. -/
def nullImg : PipeImage :=
  { name := ("null.jpg"), exif := Except.ok ⟨none, none, none, none⟩,
    ai := AIResult.text nullReply }

/-- An uploaded file whose model reply has null coordinates. -/
def nullUpload : UploadFile := { name := ("null2.jpg"), call := ModelCall.reply nullReply }

/-- 10° 30' 0", all denominators 1. -/
def dmsLat : DMS := ⟨⟨10, 1⟩, ⟨30, 1⟩, ⟨0, 1⟩⟩

/-- 1° 0' 0", all denominators 1. -/
def dmsLng : DMS := ⟨⟨1, 1⟩, ⟨0, 1⟩, ⟨0, 1⟩⟩

/-- A complete, readable GPS tag set. -/
def gpsTags : ExifTags := ⟨some dmsLat, some 'N', some dmsLng, some 'E'⟩

/-- A pipeline image with complete GPS metadata (its AI behaviour is
irrelevant: the fallback must never run for it). -/
def gpsImg : PipeImage :=
  { name := ("gps.jpg"), exif := Except.ok gpsTags, ai := AIResult.raised ("unused") }

/-- A pipeline image with no GPS tags whose model call raises (transport
error). -/
def pipeBad : PipeImage :=
  { name := ("broken.jpg"), exif := Except.ok ⟨none, none, none, none⟩,
    ai := AIResult.raised ("network down") }

/-- A non-image file sitting in the folder. -/
def noteFile : PipeImage :=
  { name := ("notes.txt"), exif := Except.error ("not an image"),
    ai := AIResult.raised ("unused") }

/-- A DMS triple whose degrees component has denominator zero. -/
def zeroDenDMS : DMS := ⟨⟨1, 0⟩, ⟨0, 1⟩, ⟨0, 1⟩⟩

/-- All four GPS tags present, but the latitude triple is unreadable
(zero denominator ⇒ `ZeroDivisionError` during conversion). -/
def zdTags : ExifTags := ⟨some zeroDenDMS, some 'N', some dmsLng, some 'E'⟩

/-- A pipeline image carrying `zdTags`; its model call raises. -/
def zdImg : PipeImage :=
  { name := ("zeroden.jpg"), exif := Except.ok zdTags,
    ai := AIResult.raised ("network down") }

/-- §8's three points A(0,0), B(0,1°), C(1°,1°). -/
def ptA : Node := ⟨0, 0⟩

def ptB : Node := ⟨0, 1⟩

def ptC : Node := ⟨1, 1⟩

/-- Three pairwise-distinct points whose taxicab totals tie under a
transposition: (0,0), (1,0), (0,1). -/
def cxP1 : Node := ⟨0, 0⟩

def cxP2 : Node := ⟨1, 0⟩

def cxP3 : Node := ⟨0, 1⟩

/-- Three collinear points whose taxicab totals differ under a
transposition: (0,0), (0,1), (0,2). -/
def cxQ1 : Node := ⟨0, 0⟩

def cxQ2 : Node := ⟨0, 1⟩

def cxQ3 : Node := ⟨0, 2⟩

/-! ### Claims -/

/-- Claim C5: `totalDistance` of an empty Track and of any single-point
Track is `0.0`, and for a Track of `n ≥ 2` resolved points it is the sum of
the pairwise distance over exactly the `n-1` consecutive pairs
(`sumPairs`); in particular for A(0,0), B(0,1°), C(1°,1°) in submission
order it is `dist A B + dist B C`, with no A–C term.  The distance function
itself is `geopy.distance.geodesic(...).km` — an external great-circle
computation — so it appears here as the abstract parameter `dist`. -/
theorem c5_total_distance_consecutive_pairs (dist : Node → Node → Rat) :
    total_distance dist [] = 0 ∧
    (∀ p : Node, total_distance dist [p] = 0) ∧
    (∀ nodes : List Node, total_distance dist nodes = sumPairs dist nodes) ∧
    total_distance dist [ptA, ptB, ptC] = dist ptA ptB + dist ptB ptC := by
  refine ⟨rfl, fun p => rfl, fun nodes => total_distance_eq_sumPairs dist nodes, ?_⟩
  rw [total_distance_eq_sumPairs, sumPairs_cons_cons, sumPairs_cons_cons, sumPairs_single,
    add_zero]

/-- Claim C9 counterexample: with the symmetric distance `dTaxi` and the
pairwise-distinct points (0,0), (1,0), (0,1), the Track with the last point
inserted out of order has the *same* total distance as the original Track,
so "inserting a point out of chronological order changes the total" fails
as a universal statement. -/
theorem c9_counterexample :
    total_distance dTaxi [cxP1, cxP2, cxP3] = total_distance dTaxi [cxP1, cxP3, cxP2] ∧
    cxP1 ≠ cxP2 ∧ cxP1 ≠ cxP3 ∧ cxP2 ≠ cxP3 ∧
    ([cxP1, cxP2, cxP3] : List Node) ≠ [cxP1, cxP3, cxP2] := by
  refine ⟨?_, by decide, by decide, by decide, by decide⟩
  norm_num [total_distance, List.range_succ, dTaxi, ratAbs, cxP1, cxP2, cxP3]

/-- Claim C9 (amended): for any symmetric distance function, reversing a
Track leaves `total_distance` unchanged (the path is undirected); and
`total_distance` is genuinely order-sensitive — inserting a point out of
chronological order *can* change the total (witnessed by `dTaxi` on
(0,0), (0,1), (0,2)) — but an out-of-order insertion does not change the
total in every case (see the counterexample). -/
theorem c9_amended (dist : Node → Node → Rat) (hsym : ∀ p q, dist p q = dist q p) :
    (∀ nodes : List Node, total_distance dist nodes.reverse = total_distance dist nodes) ∧
    total_distance dTaxi [cxQ1, cxQ2, cxQ3] ≠ total_distance dTaxi [cxQ1, cxQ3, cxQ2] := by
  constructor
  · intro nodes
    rw [total_distance_eq_sumPairs, total_distance_eq_sumPairs, sumPairs_reverse dist hsym]
  · norm_num [total_distance, List.range_succ, dTaxi, ratAbs, cxQ1, cxQ2, cxQ3]

/-- Claim C9 witness: the amended claim applied to the code's summation
with the concrete symmetric distance `dTaxi` and a concrete Track. -/
theorem c9_witness :
    total_distance dTaxi ([cxQ1, cxQ2, cxQ3].reverse) = total_distance dTaxi [cxQ1, cxQ2, cxQ3] :=
  (c9_amended dTaxi dTaxi_symm).1 [cxQ1, cxQ2, cxQ3]

/-- Claim C7: when the model call raises before any reply text is available
(safety filtering — `response.text` raising `ValueError`), the identifier
reports the safety-block diagnostic for that file, and that diagnostic
never coincides with the parse-failure ("Format Error") diagnostic,
whatever raw reply the latter would carry. -/
theorem c7_refusal_distinct (f : UploadFile) (rest : List UploadFile) (results : List Row)
    (h : f.call = ModelCall.refusal) :
    processFiles (f :: rest) results = (safetyMsg f.name, []) ∧
    ∀ raw, safetyMsg f.name ≠ formatMsg raw := by
  constructor
  · simp [processFiles, processFile, h]
  · intro raw
    exact safety_ne_format f.name raw

/-- Claim C7 witness: the refusal file at a concrete input. -/
theorem c7_witness :
    processFiles [refusalFile] [] = (safetyMsg ("refused.jpg"), []) ∧
    safetyMsg ("refused.jpg") ≠ formatMsg ("oops") := by
  have h := c7_refusal_distinct refusalFile [] [] rfl
  exact ⟨h.1, h.2 ("oops")⟩

/-- Claim C10: `process_images` silently skips every file whose name does
not end (case-insensitively) in `.png`/`.jpg`/`.jpeg`/`.webp` — removing
such a file from the folder changes nothing about the run, so it yields
neither a point nor a diagnostic — and a nonexistent folder returns
`(None, [])` without raising (totality of the model; the source's guard
returns before touching the file system). -/
theorem c10_extension_filter (l1 l2 files : List PipeImage) (img : PipeImage)
    (h : hasImageExt img.name = false) :
    process_images true (l1 ++ img :: l2) = process_images true (l1 ++ l2) ∧
    process_images false files = { map := none, pts := [], diags := [], aiCalls := [] } := by
  constructor
  · simp [process_images, List.filter_append, List.filter_cons, h]
  · rfl

/-- Claim C10 witness: a `.txt` file among image files is skipped, and the
missing-folder run at a concrete batch. -/
theorem c10_witness :
    process_images true [noteFile, gpsImg] = process_images true [gpsImg] ∧
    process_images false [noteFile] = { map := none, pts := [], diags := [], aiCalls := [] } := by
  have h := c10_extension_filter [] [gpsImg] [noteFile] noteFile (by decide)
  exact ⟨h.1, h.2⟩

end Geo

namespace Geo

/-- Claim C3: for every model reply containing at least one opening brace
and a later closing brace, the identifier's regex picks out exactly the
substring from the first opening brace (index `i`) to the last closing
brace (index `s.length - 1 - ri`, where `ri` counts from the end) and
parses it as JSON, ignoring surrounding prose; in particular §8's Tokyo
Tower reply yields coordinate (35.6586, 139.7454) with name "Tokyo Tower",
and pipeline.py's `find`/`rfind` slice extracts the same substring. -/
theorem c3_parse_first_to_last_brace (s : List Char) (i ri : Nat)
    (h1 : s.findIdx? (fun x => x = '{') = some i)
    (h2 : s.reverse.findIdx? (fun x => x = '}') = some ri)
    (h3 : i < s.length - 1 - ri) :
    app2Extract s = some ((s.drop i).take ((s.length - 1 - ri) + 1 - i)) ∧
    app2Extract tokyoReply.data = some tokyoJson.data ∧
    processFile tokyoFile = Except.ok
      { file := ("tokyo.jpg"), lat := (35.6586 : ℚ), lon := (139.7454 : ℚ),
        source := ("AI Neural Vision"), landmark := JVal.str ("Tokyo Tower") } ∧
    pipelineExtract tokyoReply.data = tokyoJson.data := by
  refine ⟨?_, by decide, ?_, by decide⟩
  · simp only [app2Extract, h1, h2]
    rw [if_pos h3]
  · have hp : processFile tokyoFile = Except.ok
        { file := ("tokyo.jpg"), lat := DecNum.toRat ⟨false, 35, 4, 6586⟩,
          lon := DecNum.toRat ⟨false, 139, 4, 7454⟩,
          source := ("AI Neural Vision"), landmark := JVal.str ("Tokyo Tower") } := rfl
    rw [hp]
    norm_num [DecNum.toRat]

/-- Claim C3 witness: the Tokyo Tower reply, whose first `{` is at index 6
and whose last `}` is 17 characters before the end. -/
theorem c3_witness :
    app2Extract tokyoReply.data
        = some ((tokyoReply.data.drop 6).take ((tokyoReply.data.length - 1 - 17) + 1 - 6)) ∧
    app2Extract tokyoReply.data = some tokyoJson.data ∧
    processFile tokyoFile = Except.ok
      { file := ("tokyo.jpg"), lat := (35.6586 : ℚ), lon := (139.7454 : ℚ),
        source := ("AI Neural Vision"), landmark := JVal.str ("Tokyo Tower") } ∧
    pipelineExtract tokyoReply.data = tokyoJson.data :=
  c3_parse_first_to_last_brace tokyoReply.data 6 17 (by decide) (by decide) (by decide)

/-- Claim C6 counterexample: pipeline.py's landmark-identifier branch does
*not* substitute `0.0` for explicitly null coordinates — the reply
`{"lat": null, "lng": null, "name": "X"}` produces an evidence item whose
stored latitude is the null value itself, not `0.0`. -/
theorem c6_counterexample :
    (imageResult nullImg).pts =
      [{ lat := PVal.null, lng := PVal.null, name := PVal.str ("X"),
         filename := ("null.jpg"), desc := some (PVal.str ("")), source := ("AI") }] ∧
    PVal.null ≠ PVal.num 0 :=
  ⟨by decide, by decide⟩

/-- Claim C6 (amended): app2.py's landmark identifier substitutes `0.0` for
explicitly null `lat`/`lng` and returns a successful coordinate; the
pipeline.py variant instead stores the parsed null unchanged (neither
substitution nor failure — see the counterexample). -/
theorem c6_amended (file : UploadFile) (text : String) (sub : List Char) (fields : JObj)
    (hc : file.call = ModelCall.reply text)
    (hx : app2Extract text.data = some sub)
    (hp : parseObjChars sub = Except.ok fields)
    (hlat : fields.lookup ("lat") = some JVal.null)
    (hlng : fields.lookup ("lng") = some JVal.null) :
    processFile file = Except.ok
      { file := file.name, lat := 0, lon := 0, source := ("AI Neural Vision"),
        landmark := jGetD fields ("name") (JVal.str ("Unknown Node")) } := by
  simp only [processFile, hc, hx, hp, pyGetOrZero, hlat, hlng, pyTruthy, pyFloat]
  norm_num [DecNum.toRat]

/-- Claim C6 witness: the null-coordinate reply through app2's identifier
comes back as a successful (0, 0) row. -/
theorem c6_witness :
    processFile nullUpload = Except.ok
      { file := ("null2.jpg"), lat := 0, lon := 0, source := ("AI Neural Vision"),
        landmark := JVal.str ("X") } :=
  c6_amended nullUpload nullReply nullReply.data
    [(("lat"), JVal.null), (("lng"), JVal.null), (("name"), JVal.str ("X"))]
    rfl (by decide) (by decide) (by decide) (by decide)

/-- Claim C1 counterexample: an image whose metadata contains all four
required GPS tags, yet the pipeline invokes the landmark identifier for it
and produces no METADATA evidence item — the latitude triple's zero
denominator makes the conversion raise, which the code treats as "no usable
GPS". -/
theorem c1_counterexample :
    zdImg.exif = Except.ok zdTags ∧
    zdTags.latTag.isSome = true ∧ zdTags.latRef.isSome = true ∧
    zdTags.lngTag.isSome = true ∧ zdTags.lngRef.isSome = true ∧
    (imageResult zdImg).aiCalls = [("zeroden.jpg")] ∧
    (imageResult zdImg).pts = [] :=
  ⟨rfl, by decide, by decide, by decide, by decide, by decide, by decide⟩

/-- Claim C1 (amended): if the metadata read succeeds, all four GPS tags
are present *and both DMS conversions succeed*, the loop body produces
exactly one EXIF-provenance evidence item and never invokes the landmark
identifier; whenever strategy A yields no coordinate (missing tag,
unreadable metadata, or a failing conversion) the landmark identifier is
invoked exactly once. -/
theorem c1_amended (img : PipeImage) :
    ((∃ t latT lngT latR lngR lat0 lng0,
        img.exif = Except.ok t ∧
        t.latTag = some latT ∧ t.lngTag = some lngT ∧
        t.latRef = some latR ∧ t.lngRef = some lngR ∧
        convert_to_degrees latT = Except.ok lat0 ∧
        convert_to_degrees lngT = Except.ok lng0) →
      (imageResult img).aiCalls = [] ∧
      ∃ pt, (imageResult img).pts = [pt] ∧ pt.source = ("EXIF")) ∧
    ((exifOutcome img).1 = none → (imageResult img).aiCalls = [img.name]) := by
  constructor
  · rintro ⟨t, latT, lngT, latR, lngR, lat0, lng0, hexif, h1, h2, h3, h4, h5, h6⟩
    have hc : exifCoord t = Except.ok (some
        ((if latR ≠ 'N' then -lat0 else lat0), (if lngR ≠ 'E' then -lng0 else lng0))) := by
      simp only [exifCoord, h1, h2, h3, h4, h5, h6]
    have hpt : (exifOutcome img).1 = some
        { lat := PVal.num (if latR ≠ 'N' then -lat0 else lat0),
          lng := PVal.num (if lngR ≠ 'E' then -lng0 else lng0),
          name := PVal.str (("GPS Data (") ++ img.name ++ (")")),
          filename := img.name, desc := none, source := ("EXIF") } := by
      simp [exifOutcome, hexif, hc]
    rw [imageResult_of_exif img _ hpt]
    exact ⟨rfl, ⟨_, rfl, rfl⟩⟩
  · intro h
    rw [imageResult_of_noexif img h]

/-- Claim C1 witness: a complete-metadata image resolves without any AI
invocation; a tagless image invokes the identifier exactly once. -/
theorem c1_witness :
    ((imageResult gpsImg).aiCalls = [] ∧
      ∃ pt, (imageResult gpsImg).pts = [pt] ∧ pt.source = ("EXIF")) ∧
    (imageResult pipeBad).aiCalls = [("broken.jpg")] := by
  refine ⟨(c1_amended gpsImg).1
    ⟨gpsTags, dmsLat, dmsLng, 'N', 'E', _, _, rfl, rfl, rfl, rfl, rfl, rfl, rfl⟩, ?_⟩
  exact (c1_amended pipeBad).2 (by decide)

/-- Claim C2 counterexample: in app2.py a single item's parse failure *does*
abort the rest of the batch — with a brace-less first reply the whole run
returns the format-error diagnostic and an empty DataFrame, even though the
second file alone resolves successfully. -/
theorem c2_counterexample :
    process_uploaded_files true [badFile, tokyoFile] = (formatMsg ("no json here"), []) ∧
    (process_uploaded_files true [tokyoFile]).1 = successMsg ∧
    (process_uploaded_files true [tokyoFile]).2.map (fun r => r.file) = [("tokyo.jpg")] :=
  ⟨by decide, by decide, by decide⟩

/-- Claim C2 (amended): in pipeline.py's `process_images`, a landmark-
identifier failure (the call raising, or the reply failing to parse) yields
a per-item console diagnostic (the transcript names the failing file),
produces no evidence item for that image, and processing continues: the
batch's points are exactly those of the other images.  app2.py's
`process_uploaded_files`, by contrast, aborts the whole batch on the first
failure and discards prior rows (see the counterexample). -/
theorem c2_amended (l1 l2 : List PipeImage) (bad : PipeImage)
    (hext : hasImageExt bad.name = true)
    (hnoexif : (exifOutcome bad).1 = none)
    (hfail : (∃ e, bad.ai = AIResult.raised e) ∨
      (∃ s e, bad.ai = AIResult.text s ∧
        pyJsonLoads (pipelineExtract s.data) = Except.error e)) :
    (process_images true (l1 ++ bad :: l2)).pts
        = (process_images true l1).pts ++ (process_images true l2).pts ∧
    (imageResult bad).pts = [] ∧
    (("[+] Processing: ") ++ bad.name) ∈ (process_images true (l1 ++ bad :: l2)).diags := by
  have hain : (aiOutcome bad).1 = none := aiOutcome_none_of_fail bad hfail
  have hbad := imageResult_of_noexif bad hnoexif
  have hpts : (imageResult bad).pts = [] := by rw [hbad]; simp [hain]
  refine ⟨?_, hpts, ?_⟩
  · rw [process_images_pts, process_images_pts, process_images_pts]
    simp [List.filter_append, List.filter_cons, hext, hpts]
  · rw [process_images_diags]
    refine List.mem_flatMap.mpr ⟨bad, ?_, ?_⟩
    · refine List.mem_filter.mpr ⟨?_, hext⟩
      exact List.mem_append.mpr (Or.inr (List.mem_cons_self bad _))
    · rw [hbad]
      exact List.mem_append.mpr (Or.inl (List.mem_cons_self _ _))

/-- Claim C2 witness: a transport-failing image between/before others
contributes a diagnostic and no point, and the rest of the batch still
resolves. -/
theorem c2_witness :
    (process_images true ([] ++ pipeBad :: [gpsImg])).pts
        = (process_images true []).pts ++ (process_images true [gpsImg]).pts ∧
    (imageResult pipeBad).pts = [] ∧
    (("[+] Processing: ") ++ pipeBad.name) ∈ (process_images true ([] ++ pipeBad :: [gpsImg])).diags :=
  c2_amended [] [gpsImg] pipeBad (by decide) (by decide) (Or.inl ⟨("network down"), rfl⟩)

/-- Claim C4: whenever the four GPS tags are read and the stored rationals
have nonzero denominators, the extractor's coordinate is exactly
`degrees + minutes/60 + seconds/3600` from each component's stored
numerator/denominator, with the latitude negated exactly when the latitude
reference is not `'N'` and the longitude negated exactly when the longitude
reference is not `'E'`. -/
theorem c4_dms_conversion (t : ExifTags) (latT lngT : DMS) (latR lngR : Char)
    (h1 : t.latTag = some latT) (h2 : t.lngTag = some lngT)
    (h3 : t.latRef = some latR) (h4 : t.lngRef = some lngR)
    (hd1 : latT.d.den ≠ 0) (hd2 : latT.m.den ≠ 0) (hd3 : latT.s.den ≠ 0)
    (hd4 : lngT.d.den ≠ 0) (hd5 : lngT.m.den ≠ 0) (hd6 : lngT.s.den ≠ 0) :
    exifCoord t = Except.ok (some
      ((if latR = 'N'
          then (latT.d.num : Rat) / (latT.d.den : Rat)
            + (latT.m.num : Rat) / (latT.m.den : Rat) / 60
            + (latT.s.num : Rat) / (latT.s.den : Rat) / 3600
          else -((latT.d.num : Rat) / (latT.d.den : Rat)
            + (latT.m.num : Rat) / (latT.m.den : Rat) / 60
            + (latT.s.num : Rat) / (latT.s.den : Rat) / 3600)),
       (if lngR = 'E'
          then (lngT.d.num : Rat) / (lngT.d.den : Rat)
            + (lngT.m.num : Rat) / (lngT.m.den : Rat) / 60
            + (lngT.s.num : Rat) / (lngT.s.den : Rat) / 3600
          else -((lngT.d.num : Rat) / (lngT.d.den : Rat)
            + (lngT.m.num : Rat) / (lngT.m.den : Rat) / 60
            + (lngT.s.num : Rat) / (lngT.s.den : Rat) / 3600)))) := by
  have hc1 : convert_to_degrees latT = Except.ok
      ((latT.d.num : Rat) / (latT.d.den : Rat)
        + (latT.m.num : Rat) / (latT.m.den : Rat) / 60
        + (latT.s.num : Rat) / (latT.s.den : Rat) / 3600) := by
    simp only [convert_to_degrees]
    rw [if_neg]
    push_neg
    exact ⟨hd1, hd2, hd3⟩
  have hc2 : convert_to_degrees lngT = Except.ok
      ((lngT.d.num : Rat) / (lngT.d.den : Rat)
        + (lngT.m.num : Rat) / (lngT.m.den : Rat) / 60
        + (lngT.s.num : Rat) / (lngT.s.den : Rat) / 3600) := by
    simp only [convert_to_degrees]
    rw [if_neg]
    push_neg
    exact ⟨hd4, hd5, hd6⟩
  simp only [exifCoord, h1, h2, h3, h4, hc1, hc2]
  by_cases hN : latR = 'N' <;> by_cases hE : lngR = 'E' <;> simp [hN, hE]

/-- Claim C4 witness: 10° 30' 0" N, 1° 0' 0" E converts to (10.5, 1). -/
theorem c4_witness : exifCoord gpsTags = Except.ok (some ((21/2 : ℚ), (1 : ℚ))) := by
  have h := c4_dms_conversion gpsTags dmsLat dmsLng 'N' 'E' rfl rfl rfl rfl
    (by decide) (by decide) (by decide) (by decide) (by decide) (by decide)
  rw [h]
  norm_num [dmsLat, dmsLng]

/-- Claim C8: the metadata extractor yields a coordinate if and only if the
metadata read succeeds, all four required tags are present, and both DMS
conversions succeed ("present and readable"); whenever it yields no
coordinate — for any reason, all of which are caught internally (the model
is total: nothing propagates) — the loop body proceeds to the landmark
identifier fallback, invoking it exactly once and keeping whatever point
that fallback produces. -/
theorem c8_extractor_iff (img : PipeImage) :
    ((exifOutcome img).1.isSome = true ↔
      ∃ t latT lngT latR lngR lat0 lng0,
        img.exif = Except.ok t ∧
        t.latTag = some latT ∧ t.lngTag = some lngT ∧
        t.latRef = some latR ∧ t.lngRef = some lngR ∧
        convert_to_degrees latT = Except.ok lat0 ∧
        convert_to_degrees lngT = Except.ok lng0) ∧
    ((exifOutcome img).1 = none →
      (imageResult img).aiCalls = [img.name] ∧
      (imageResult img).pts = (aiOutcome img).1.toList) := by
  constructor
  · constructor
    · intro h
      obtain ⟨t, c, hexif, hc⟩ := (exifOutcome_isSome_iff img).mp h
      obtain ⟨latT, lngT, latR, lngR, lat0, lng0, h1, h2, h3, h4, h5, h6⟩ :=
        (exifCoord_some_iff t).mp ⟨c, hc⟩
      exact ⟨t, latT, lngT, latR, lngR, lat0, lng0, hexif, h1, h2, h3, h4, h5, h6⟩
    · rintro ⟨t, latT, lngT, latR, lngR, lat0, lng0, hexif, h1, h2, h3, h4, h5, h6⟩
      obtain ⟨c, hc⟩ := (exifCoord_some_iff t).mpr
        ⟨latT, lngT, latR, lngR, lat0, lng0, h1, h2, h3, h4, h5, h6⟩
      exact (exifOutcome_isSome_iff img).mpr ⟨t, c, hexif, hc⟩
  · intro h
    rw [imageResult_of_noexif img h]
    exact ⟨rfl, rfl⟩

/-- Claim C8 witness: the complete-metadata image yields a coordinate; the
tagless image falls through to the AI branch, invoked once. -/
theorem c8_witness :
    ((exifOutcome gpsImg).1.isSome = true) ∧
    (imageResult pipeBad).aiCalls = [("broken.jpg")] ∧
    (imageResult pipeBad).pts = (aiOutcome pipeBad).1.toList := by
  refine ⟨?_, ?_, ?_⟩
  · exact (c8_extractor_iff gpsImg).1.mpr
      ⟨gpsTags, dmsLat, dmsLng, 'N', 'E', _, _, rfl, rfl, rfl, rfl, rfl, rfl, rfl⟩
  · exact ((c8_extractor_iff pipeBad).2 (by decide)).1
  · exact ((c8_extractor_iff pipeBad).2 (by decide)).2

end Geo
